import Mathlib

/-!
Shallow embedding of the ROV control core (`src/src/main.cpp`,
`src/src/config.cpp`, `src/src/config_synchronizer.cpp`,
`src/unnamed/part_002` = thruster_control.cpp) together with theorems that
settle the frozen specification claims.

Numeric conventions: C++ `int` fields are modelled as `ℤ`, `float`/`double`
fields and arithmetic as `ℚ`, and `static_cast<int>` as truncation toward
zero.  Floating-point rounding is idealized away; none of the claims is about
rounding behaviour.
-/

namespace ROV

/-- Truncation of a rational toward zero, the behaviour of C++
`static_cast<int>` on a float value. -/
def cTrunc (q : ℚ) : ℤ :=
  if 0 ≤ q then ⌊q⌋ else -⌊-q⌋

/-- `map_value` from `src/unnamed/part_002` lines 33-42: linear map of `x`
from `[in_min, in_max]` onto `[out_min, out_max]`, clamping the input into
the source interval first, and returning `out_min` when the source interval
is degenerate. -/
def map_value (x in_min in_max out_min out_max : ℚ) : ℚ :=
  if in_max = in_min then out_min
  else
    let xc := max in_min (min x in_max)
    (xc - in_min) * (out_max - out_min) / (in_max - in_min) + out_min

/-- `smooth_interpolate` from `src/unnamed/part_002` lines 45-50. -/
def smooth_interpolate (current_value target_value smoothing_factor : ℚ) : ℚ :=
  current_value + (target_value - current_value) * smoothing_factor

/-- The parameter record `AppConfig` (`src/src/config.cpp` / config.h).
Only the fields fixed by the sources are kept; `float`/`double` fields are
`ℚ`, `unsigned` fields are `ℕ`. -/
structure AppConfig where
  pwm_min : ℤ
  pwm_neutral : ℤ
  pwm_normal_max : ℤ
  pwm_boost_max : ℤ
  pwm_frequency : ℚ
  joystick_deadzone : ℤ
  led_pwm_channel : ℤ
  led_pwm_on : ℤ
  led_pwm_off : ℤ
  led2_pwm_channel : ℤ
  led2_pwm_off : ℤ
  led2_pwm_on1 : ℤ
  led2_pwm_on2 : ℤ
  led2_pwm_max : ℤ
  led3_pwm_channel : ℤ
  led3_pwm_off : ℤ
  led3_pwm_on1 : ℤ
  led3_pwm_on2 : ℤ
  led3_pwm_max : ℤ
  led4_pwm_channel : ℤ
  led4_pwm_off : ℤ
  led4_pwm_on1 : ℤ
  led4_pwm_on2 : ℤ
  led4_pwm_max : ℤ
  led5_pwm_channel : ℤ
  led5_pwm_off : ℤ
  led5_pwm_on1 : ℤ
  led5_pwm_on2 : ℤ
  led5_pwm_max : ℤ
  smoothing_factor_horizontal : ℚ
  smoothing_factor_vertical : ℚ
  kp_roll : ℚ
  kp_yaw : ℚ
  yaw_threshold_dps : ℚ
  yaw_gain : ℚ
  network_recv_port : ℤ
  network_send_port : ℤ
  client_host : String
  connection_timeout_seconds : ℚ
  sensor_send_interval : ℕ
  loop_delay_us : ℕ
  gst1_device : String
  gst1_port : ℤ
  gst1_width : ℤ
  gst1_height : ℤ
  gst1_framerate_num : ℤ
  gst1_framerate_den : ℤ
  gst1_is_h264_native_source : Bool
  gst1_rtp_payload_type : ℤ
  gst1_rtp_config_interval : ℤ
  gst2_device : String
  gst2_port : ℤ
  gst2_width : ℤ
  gst2_height : ℤ
  gst2_framerate_num : ℤ
  gst2_framerate_den : ℤ
  gst2_is_h264_native_source : Bool
  gst2_rtp_payload_type : ℤ
  gst2_rtp_config_interval : ℤ
  gst2_x264_bitrate : ℤ
  gst2_x264_tune : String
  gst2_x264_speed_preset : String
  config_sync_cpp_recv_port : ℤ
  config_sync_wpf_host : String
  config_sync_wpf_recv_port : ℤ

/-- The `AppConfig` default constructor (`src/src/config.cpp` lines 18-38). -/
def defaultConfig : AppConfig where
  pwm_min := 1100
  pwm_neutral := 1500
  pwm_normal_max := 1900
  pwm_boost_max := 1900
  pwm_frequency := 50
  joystick_deadzone := 6500
  led_pwm_channel := 9
  led_pwm_on := 1900
  led_pwm_off := 1100
  led2_pwm_channel := 10
  led2_pwm_off := 1100
  led2_pwm_on1 := 1300
  led2_pwm_on2 := 1600
  led2_pwm_max := 1900
  led3_pwm_channel := 11
  led3_pwm_off := 1100
  led3_pwm_on1 := 1300
  led3_pwm_on2 := 1600
  led3_pwm_max := 1900
  led4_pwm_channel := 12
  led4_pwm_off := 1100
  led4_pwm_on1 := 1300
  led4_pwm_on2 := 1600
  led4_pwm_max := 1900
  led5_pwm_channel := 13
  led5_pwm_off := 1100
  led5_pwm_on1 := 1300
  led5_pwm_on2 := 1600
  led5_pwm_max := 1900
  smoothing_factor_horizontal := 8/100
  smoothing_factor_vertical := 4/100
  kp_roll := 2/10
  kp_yaw := 15/100
  yaw_threshold_dps := 1/2
  yaw_gain := 1000
  network_recv_port := 12345
  network_send_port := 12346
  client_host := "192.168.4.10"
  connection_timeout_seconds := 2/10
  sensor_send_interval := 10
  loop_delay_us := 10000
  gst1_device := "/dev/video2"
  gst1_port := 5000
  gst1_width := 1280
  gst1_height := 720
  gst1_framerate_num := 30
  gst1_framerate_den := 1
  gst1_is_h264_native_source := true
  gst1_rtp_payload_type := 96
  gst1_rtp_config_interval := 1
  gst2_device := "/dev/video6"
  gst2_port := 5001
  gst2_width := 1280
  gst2_height := 720
  gst2_framerate_num := 30
  gst2_framerate_den := 1
  gst2_is_h264_native_source := false
  gst2_rtp_payload_type := 96
  gst2_rtp_config_interval := 1
  gst2_x264_bitrate := 5000
  gst2_x264_tune := "zerolatency"
  gst2_x264_speed_preset := "superfast"
  config_sync_cpp_recv_port := 12348
  config_sync_wpf_host := "192.168.4.10"
  config_sync_wpf_recv_port := 12347

/-- A duty-cycle write issued to the hardware driver: channel, the clamped
pulse width actually programmed, and the duty cycle passed to
`set_pwm_channel_duty_cycle`. -/
structure Write where
  channel : ℤ
  pulse : ℤ
  duty : ℚ
  deriving Repr, DecidableEq

/-- `set_thruster_pwm` from `src/unnamed/part_002` lines 53-71: clamp the
requested pulse width into `[pwm_min, pwm_boost_max]`, derive the duty cycle
`clamped / (1000000 / pwm_frequency)`, and program the channel. -/
def set_thruster_pwm (cfg : AppConfig) (channel pulse_width_us : ℤ) : Write :=
  let clamped_pwm := max cfg.pwm_min (min pulse_width_us cfg.pwm_boost_max)
  { channel := channel
    pulse := clamped_pwm
    duty := (clamped_pwm : ℚ) / (1000000 / cfg.pwm_frequency) }

example : (set_thruster_pwm defaultConfig 0 2500).pulse = 1900 := by
  norm_num [set_thruster_pwm, defaultConfig]
example : (set_thruster_pwm defaultConfig 0 1500).duty = 75/1000 := by
  norm_num [set_thruster_pwm, defaultConfig]

/-- The five gamepad buttons the thruster module reads
(`GamepadButton::Y`, `DPadUp`, `DPadDown`, `DPadLeft`, `DPadRight`). -/
structure GamepadButtons where
  y : Bool
  dpadUp : Bool
  dpadDown : Bool
  dpadLeft : Bool
  dpadRight : Bool
  deriving Repr, DecidableEq

/-- `GamepadData`: the stick axes and buttons used by `thruster_update`. -/
structure GamepadData where
  leftThumbX : ℤ
  rightThumbX : ℤ
  rightThumbY : ℤ
  buttons : GamepadButtons
  deriving Repr, DecidableEq

/-- The value-initialized `GamepadData{}` assigned on failsafe entry. -/
def GamepadData.zero : GamepadData :=
  ⟨0, 0, 0, ⟨false, false, false, false, false⟩⟩

/-- `AxisData` (`src/include/sensor_data.h`): a three-axis sensor sample. -/
structure AxisData where
  x : ℚ
  y : ℚ
  z : ℚ
  deriving Repr, DecidableEq

/-- `LedState` (`src/unnamed/part_002` lines 14-20). -/
inductive LedState where
  | off
  | on
  | on1
  | on2
  | max
  deriving Repr, DecidableEq

/-- The four horizontal thruster targets `target_pwm_out[0..3]`. -/
structure HorizTargets where
  t0 : ℤ
  t1 : ℤ
  t2 : ℤ
  t3 : ℤ
  deriving Repr, DecidableEq

/-- Channel projection for `HorizTargets`. -/
def HorizTargets.get (t : HorizTargets) : Fin 4 → ℤ
  | ⟨0, _⟩ => t.t0
  | ⟨1, _⟩ => t.t1
  | ⟨2, _⟩ => t.t2
  | ⟨3, _⟩ => t.t3

/-- The rotation (`leftThumbX`) contribution `pwm_lx`
(`src/unnamed/part_002` lines 196-214). -/
def pwm_lx (cfg : AppConfig) (gd : GamepadData) : HorizTargets :=
  let m := cfg.pwm_min
  if gd.leftThumbX < -cfg.joystick_deadzone then
    let val := cTrunc (map_value (gd.leftThumbX : ℚ) (-32768) (-(cfg.joystick_deadzone : ℚ))
      (cfg.pwm_normal_max : ℚ) (cfg.pwm_min : ℚ))
    ⟨m, val, val, m⟩
  else if gd.leftThumbX > cfg.joystick_deadzone then
    let val := cTrunc (map_value (gd.leftThumbX : ℚ) (cfg.joystick_deadzone : ℚ) 32767
      (cfg.pwm_min : ℚ) (cfg.pwm_normal_max : ℚ))
    ⟨val, m, m, val⟩
  else ⟨m, m, m, m⟩

/-- The strafe (`rightThumbX`) contribution `pwm_rx`
(`src/unnamed/part_002` lines 216-229). -/
def pwm_rx (cfg : AppConfig) (gd : GamepadData) : HorizTargets :=
  let m := cfg.pwm_min
  if gd.rightThumbX < -cfg.joystick_deadzone then
    let val := cTrunc (map_value (gd.rightThumbX : ℚ) (-32768) (-(cfg.joystick_deadzone : ℚ))
      (cfg.pwm_normal_max : ℚ) (cfg.pwm_min : ℚ))
    ⟨m, val, m, val⟩
  else if gd.rightThumbX > cfg.joystick_deadzone then
    let val := cTrunc (map_value (gd.rightThumbX : ℚ) (cfg.joystick_deadzone : ℚ) 32767
      (cfg.pwm_min : ℚ) (cfg.pwm_normal_max : ℚ))
    ⟨val, m, val, m⟩
  else ⟨m, m, m, m⟩

/-- The boost term `boost_add` (`src/unnamed/part_002` lines 233-238): the
weaker stick magnitude mapped from `[deadzone, 32768]` onto
`[0, pwm_boost_max - pwm_normal_max]`. -/
def boost_add (cfg : AppConfig) (gd : GamepadData) : ℤ :=
  let weaker : ℤ := min |gd.leftThumbX| |gd.rightThumbX|
  cTrunc (map_value (weaker : ℚ) (cfg.joystick_deadzone : ℚ) 32768 0
    ((cfg.pwm_boost_max : ℚ) - (cfg.pwm_normal_max : ℚ)))

/-- Per-channel maximum of the two stick contributions. -/
def maxTargets (a b : HorizTargets) : HorizTargets :=
  ⟨max a.t0 b.t0, max a.t1 b.t1, max a.t2 b.t2, max a.t3 b.t3⟩

/-- The channel boosted for each sign combination of the two sticks
(`src/unnamed/part_002` lines 241-266): left+left boosts channel 1,
left+right boosts 2, right+left boosts 3, right+right boosts 0. -/
def boostChannel (lx rx : ℤ) : Fin 4 :=
  if lx < 0 ∧ rx < 0 then 1
  else if lx < 0 ∧ rx > 0 then 2
  else if lx > 0 ∧ rx < 0 then 3
  else 0

/-- The contribution-combining stage of `update_horizontal_thrusters`
(`src/unnamed/part_002` lines 231-273): per-channel max of the two
contributions, plus the boost on one designated channel when both sticks
are active. -/
def combineTargets (cfg : AppConfig) (gd : GamepadData) : HorizTargets :=
  let base := maxTargets (pwm_lx cfg gd) (pwm_rx cfg gd)
  if |gd.leftThumbX| > cfg.joystick_deadzone ∧ |gd.rightThumbX| > cfg.joystick_deadzone then
    let b := boost_add cfg gd
    if gd.leftThumbX < 0 ∧ gd.rightThumbX < 0 then { base with t1 := base.t1 + b }
    else if gd.leftThumbX < 0 ∧ gd.rightThumbX > 0 then { base with t2 := base.t2 + b }
    else if gd.leftThumbX > 0 ∧ gd.rightThumbX < 0 then { base with t3 := base.t3 + b }
    else { base with t0 := base.t0 + b }
  else base

/-- Roll and yaw stabilization applied while the strafe stick is active
(`src/unnamed/part_002` lines 275-297). -/
def rollYawCorrection (cfg : AppConfig) (gyro : AxisData) (t : HorizTargets) : HorizTargets :=
  let cr := cTrunc (gyro.x * cfg.kp_roll)
  let cy := cTrunc (gyro.z * cfg.kp_yaw)
  ⟨t.t0 - cr - cy, t.t1 + cr + cy, t.t2 + cr + cy, t.t3 - cr - cy⟩

/-- Idle-yaw correction applied while the rotation stick is inactive
(`src/unnamed/part_002` lines 299-322). -/
def idleYawCorrection (cfg : AppConfig) (gyro : AxisData) (t : HorizTargets) : HorizTargets :=
  let yaw_rate := -gyro.z
  if |yaw_rate| > cfg.yaw_threshold_dps then
    let yaw_pwm := max (-400) (min 400 (cTrunc (yaw_rate * -cfg.yaw_gain)))
    if yaw_pwm < 0 then
      { t with t0 := min cfg.pwm_boost_max (t.t0 + |yaw_pwm|),
               t3 := min cfg.pwm_boost_max (t.t3 + |yaw_pwm|) }
    else
      { t with t1 := min cfg.pwm_boost_max (t.t1 + yaw_pwm),
               t2 := min cfg.pwm_boost_max (t.t2 + yaw_pwm) }
  else t

/-- `update_horizontal_thrusters` (`src/unnamed/part_002` lines 185-323):
combine the two stick contributions (with boost), then apply roll/yaw
stabilization while strafing and the idle-yaw correction while the rotation
stick is inactive. -/
def update_horizontal_thrusters (cfg : AppConfig) (gd : GamepadData) (gyro : AxisData) :
    HorizTargets :=
  let t := combineTargets cfg gd
  let t := if |gd.rightThumbX| > cfg.joystick_deadzone then rollYawCorrection cfg gyro t else t
  if ¬(|gd.leftThumbX| > cfg.joystick_deadzone) then idleYawCorrection cfg gyro t else t

/-- `calculate_forward_reverse_pwm` (`src/unnamed/part_002` lines 326-339). -/
def calculate_forward_reverse_pwm (cfg : AppConfig) (value : ℤ) : ℤ :=
  if value ≤ cfg.joystick_deadzone then cfg.pwm_min
  else cTrunc (map_value (value : ℚ) (cfg.joystick_deadzone : ℚ) 32767
    (cfg.pwm_min : ℚ) (cfg.pwm_boost_max : ℚ))

/-- A button rising edge: pressed this tick and not pressed the previous
tick (the pattern guarding every LED transition in `thruster_update`). -/
def risingEdge (prev cur : Bool) : Bool := cur && !prev

/-- LED 1 transition on a rising edge (`src/unnamed/part_002` lines
405-411): `OFF` becomes `ON`, anything else becomes `OFF`. -/
def toggleLed : LedState → LedState
  | .off => .on
  | _ => .off

/-- LED 2-5 transition on a rising edge (`src/unnamed/part_002` lines
427-436 and the three analogous blocks): `OFF → ON1 → ON2 → MAX`, anything
else (including `MAX`) becomes `OFF`. -/
def cycleLed : LedState → LedState
  | .off => .on1
  | .on1 => .on2
  | .on2 => .max
  | _ => .off

/-- The pulse width LED 1's state maps to (`src/unnamed/part_002` lines
415-416). -/
def ledPwm1 (cfg : AppConfig) (s : LedState) : ℤ :=
  if s = .on then cfg.led_pwm_on else cfg.led_pwm_off

/-- The pulse width a multi-level LED state maps to, given that LED's four
configured constants (`src/unnamed/part_002` lines 439-445 and analogous). -/
def ledPwmMulti (off on1 on2 mx : ℤ) : LedState → ℤ
  | .on1 => on1
  | .on2 => on2
  | .max => mx
  | _ => off

/-- The retained state of the thruster module: the six smoothed PWM values
(`current_pwm_values`), the five LED states, and the five previous-pressed
button flags (the `static` locals of `thruster_update`). -/
structure ThrusterState where
  pwm0 : ℚ
  pwm1 : ℚ
  pwm2 : ℚ
  pwm3 : ℚ
  pwm4 : ℚ
  pwm5 : ℚ
  led1 : LedState
  led2 : LedState
  led3 : LedState
  led4 : LedState
  led5 : LedState
  prevY : Bool
  prevUp : Bool
  prevDown : Bool
  prevLeft : Bool
  prevRight : Bool
  deriving Repr, DecidableEq

/-- Smoothed-value projection for the six thruster channels. -/
def ThrusterState.pwm (ts : ThrusterState) : Fin 6 → ℚ
  | ⟨0, _⟩ => ts.pwm0
  | ⟨1, _⟩ => ts.pwm1
  | ⟨2, _⟩ => ts.pwm2
  | ⟨3, _⟩ => ts.pwm3
  | ⟨4, _⟩ => ts.pwm4
  | ⟨5, _⟩ => ts.pwm5

/-- The thruster-module state right after `thruster_init` when no LED
snapshot file exists: all smoothed values at `pwm_min`, LEDs off, previous
button flags false. -/
def initThrusterState (cfg : AppConfig) : ThrusterState :=
  ⟨cfg.pwm_min, cfg.pwm_min, cfg.pwm_min, cfg.pwm_min, cfg.pwm_min, cfg.pwm_min,
   .off, .off, .off, .off, .off, false, false, false, false, false⟩

/-- The asymmetric smoothing of the forward/back channels
(`src/unnamed/part_002` lines 364-378): interpolate with
`smoothing_factor_vertical` only while the target exceeds the current
value, otherwise adopt the target immediately. -/
def forwardSmoothStep (cfg : AppConfig) (current target : ℚ) : ℚ :=
  if target > current then smooth_interpolate current target cfg.smoothing_factor_vertical
  else target

/-- `thruster_update` (`src/unnamed/part_002` lines 342-534): compute the
horizontal and forward targets, smooth them into `current_pwm_values`,
program channels 0-5 (channel 5 is written with channel 4's smoothed
value), then run the five edge-triggered LED blocks and re-assert each
LED's pulse width. Returns the new module state and the driver writes in
program order. -/
def thruster_update (cfg : AppConfig) (ts : ThrusterState) (gd : GamepadData)
    (gyro : AxisData) : ThrusterState × List Write :=
  let tgt := update_horizontal_thrusters cfg gd gyro
  let tf : ℚ := (calculate_forward_reverse_pwm cfg gd.rightThumbY : ℚ)
  let p0 := smooth_interpolate ts.pwm0 (tgt.t0 : ℚ) cfg.smoothing_factor_horizontal
  let p1 := smooth_interpolate ts.pwm1 (tgt.t1 : ℚ) cfg.smoothing_factor_horizontal
  let p2 := smooth_interpolate ts.pwm2 (tgt.t2 : ℚ) cfg.smoothing_factor_horizontal
  let p3 := smooth_interpolate ts.pwm3 (tgt.t3 : ℚ) cfg.smoothing_factor_horizontal
  let p4 := forwardSmoothStep cfg ts.pwm4 tf
  let p5 := forwardSmoothStep cfg ts.pwm5 tf
  let led1 := if risingEdge ts.prevY gd.buttons.y then toggleLed ts.led1 else ts.led1
  let led2 := if risingEdge ts.prevUp gd.buttons.dpadUp then cycleLed ts.led2 else ts.led2
  let led3 := if risingEdge ts.prevDown gd.buttons.dpadDown then cycleLed ts.led3 else ts.led3
  let led4 := if risingEdge ts.prevLeft gd.buttons.dpadLeft then cycleLed ts.led4 else ts.led4
  let led5 := if risingEdge ts.prevRight gd.buttons.dpadRight then cycleLed ts.led5 else ts.led5
  let writes :=
    [set_thruster_pwm cfg 0 (cTrunc p0),
     set_thruster_pwm cfg 1 (cTrunc p1),
     set_thruster_pwm cfg 2 (cTrunc p2),
     set_thruster_pwm cfg 3 (cTrunc p3),
     set_thruster_pwm cfg 4 (cTrunc p4),
     set_thruster_pwm cfg 5 (cTrunc p4),
     set_thruster_pwm cfg cfg.led_pwm_channel (ledPwm1 cfg led1),
     set_thruster_pwm cfg cfg.led2_pwm_channel
       (ledPwmMulti cfg.led2_pwm_off cfg.led2_pwm_on1 cfg.led2_pwm_on2 cfg.led2_pwm_max led2),
     set_thruster_pwm cfg cfg.led3_pwm_channel
       (ledPwmMulti cfg.led3_pwm_off cfg.led3_pwm_on1 cfg.led3_pwm_on2 cfg.led3_pwm_max led3),
     set_thruster_pwm cfg cfg.led4_pwm_channel
       (ledPwmMulti cfg.led4_pwm_off cfg.led4_pwm_on1 cfg.led4_pwm_on2 cfg.led4_pwm_max led4),
     set_thruster_pwm cfg cfg.led5_pwm_channel
       (ledPwmMulti cfg.led5_pwm_off cfg.led5_pwm_on1 cfg.led5_pwm_on2 cfg.led5_pwm_max led5)]
  ({ pwm0 := p0, pwm1 := p1, pwm2 := p2, pwm3 := p3, pwm4 := p4, pwm5 := p5,
     led1 := led1, led2 := led2, led3 := led3, led4 := led4, led5 := led5,
     prevY := gd.buttons.y, prevUp := gd.buttons.dpadUp, prevDown := gd.buttons.dpadDown,
     prevLeft := gd.buttons.dpadLeft, prevRight := gd.buttons.dpadRight },
   writes)

/-- `thruster_set_all_pwm` (`src/unnamed/part_002` lines 537-545): program
thruster channels 0-5 with the given pulse width, update the smoothed
values to match, and leave the LEDs alone. -/
def thruster_set_all_pwm (cfg : AppConfig) (ts : ThrusterState) (pwm_value : ℤ) :
    ThrusterState × List Write :=
  ({ ts with pwm0 := pwm_value, pwm1 := pwm_value, pwm2 := pwm_value,
             pwm3 := pwm_value, pwm4 := pwm_value, pwm5 := pwm_value },
   [set_thruster_pwm cfg 0 pwm_value,
    set_thruster_pwm cfg 1 pwm_value,
    set_thruster_pwm cfg 2 pwm_value,
    set_thruster_pwm cfg 3 pwm_value,
    set_thruster_pwm cfg 4 pwm_value,
    set_thruster_pwm cfg 5 pwm_value])

/-- `thruster_disable` (`src/unnamed/part_002` lines 167-182): thrusters to
`pwm_min`, the five LED channels to their off values, then PWM output
disabled (the final `set_pwm_enable(false)` is recorded separately in the
orchestrator's effect trace). -/
def thruster_disable_writes (cfg : AppConfig) : List Write :=
  [set_thruster_pwm cfg 0 cfg.pwm_min,
   set_thruster_pwm cfg 1 cfg.pwm_min,
   set_thruster_pwm cfg 2 cfg.pwm_min,
   set_thruster_pwm cfg 3 cfg.pwm_min,
   set_thruster_pwm cfg 4 cfg.pwm_min,
   set_thruster_pwm cfg 5 cfg.pwm_min,
   set_thruster_pwm cfg cfg.led_pwm_channel cfg.led_pwm_off,
   set_thruster_pwm cfg cfg.led2_pwm_channel cfg.led2_pwm_off,
   set_thruster_pwm cfg cfg.led3_pwm_channel cfg.led3_pwm_off,
   set_thruster_pwm cfg cfg.led4_pwm_channel cfg.led4_pwm_off,
   set_thruster_pwm cfg cfg.led5_pwm_channel cfg.led5_pwm_off]

/-- `std::copysign(1.0f, z)` on a rational reading (which has no negative
zero): `-1` for negative values, `1` otherwise. -/
def sgn1 (z : ℚ) : ℚ := if z < 0 then -1 else 1

/-- The control loop's per-iteration state (`src/src/main.cpp`): the loop
flags, the network session context, the rollover-check memory
`prev_accel_z_sign`, the latest gamepad sample, the telemetry counter and
the thruster-module state.

Modelled from the spec: the fields `peerKnown` and `lastRecv` mirror the
Network Session Context of `network.h`/`network.cpp`, which is not under
`src/` — per the spec it records whether a peer address has ever been
observed and the timestamp of the last successful receive. -/
structure LoopState where
  running : Bool
  failsafe : Bool
  peerKnown : Bool
  lastRecv : ℚ
  prevSign : ℚ
  gamepad : GamepadData
  loopCounter : ℕ
  ts : ThrusterState
  deriving Repr, DecidableEq

/-- What one loop iteration observes from the outside world: the wall-clock
time of `gettimeofday`, the pending datagram if any, and the gyro and
accelerometer samples the drivers would return this tick. -/
structure TickInput where
  now : ℚ
  datagram : Option GamepadData
  gyro : AxisData
  accel : AxisData
  deriving Repr, DecidableEq

/-- The `if (!currently_in_failsafe && running)` block of the loop body
(`src/src/main.cpp` lines 155-195): run the mixer and accessory machine,
check the vertical-acceleration sign against the previous tick's sign
(`lines 160-172`), and advance the telemetry counter. -/
def normalPhase (cfg : AppConfig) (s : LoopState) (inp : TickInput) :
    LoopState × List Write :=
  if ¬s.failsafe ∧ s.running then
    let tw := thruster_update cfg s.ts s.gamepad inp.gyro
    let zsgn := sgn1 inp.accel.z
    let running :=
      if s.prevSign = 0 then s.running
      else if zsgn ≠ s.prevSign ∧ inp.accel.z ≠ 0 then false
      else s.running
    let loopCounter := if s.loopCounter ≥ cfg.sensor_send_interval then 0 else s.loopCounter + 1
    ({ s with ts := tw.1, running := running, prevSign := zsgn, loopCounter := loopCounter },
     tw.2)
  else ({ s with loopCounter := 0 }, [])

/-- One iteration of the control loop (`src/src/main.cpp` lines 79-198),
omitting the config hot-reload check (modelled separately with
`loadConfig`) and the telemetry/LED-status sends, which program no PWM.

Modelled from the spec: a successful `network_receive` marks the peer as
observed and stamps the last-successful-receive time (the Network Session
Context semantics of `network.cpp`, which is not under `src/`). -/
def tick (cfg : AppConfig) (s : LoopState) (inp : TickInput) : LoopState × List Write :=
  let time_since : ℚ := if s.peerKnown then inp.now - s.lastRecv else 0
  match inp.datagram with
  | some d =>
    let s1 := { s with failsafe := false, gamepad := d, peerKnown := true,
                       lastRecv := inp.now }
    normalPhase cfg s1 inp
  | none =>
    if s.peerKnown ∧ time_since > cfg.connection_timeout_seconds ∧ ¬s.failsafe then
      let tw := thruster_set_all_pwm cfg s.ts cfg.pwm_min
      ({ s with ts := tw.1, gamepad := GamepadData.zero, failsafe := true,
                running := false, loopCounter := 0 },
       tw.2)
    else normalPhase cfg s inp

/-- The `while (running)` loop driven by a finite stream of tick inputs. -/
def runLoop (cfg : AppConfig) (s : LoopState) : List TickInput → LoopState
  | [] => s
  | inp :: rest => if s.running then runLoop cfg (tick cfg s inp).1 rest else s

/-- The loop state right before the first iteration (`src/src/main.cpp`
lines 61-77): failsafe, no peer observed, thrusters forced to `pwm_min`. -/
def initialLoopState (cfg : AppConfig) : LoopState :=
  { running := true, failsafe := true, peerKnown := false, lastRecv := 0, prevSign := 0,
    gamepad := GamepadData.zero, loopCounter := 0,
    ts := (thruster_set_all_pwm cfg (initThrusterState cfg) cfg.pwm_min).1 }

/-- An observable step of the shutdown sequence. -/
inductive Effect where
  | stopSyncTask
  | pwmWrite (w : Write)
  | disablePwmOutput
  | saveLedStateFile
  | closeNetwork
  | stopVideoPipelines
  deriving Repr, DecidableEq

/-- The cleanup sequence executed when the control loop exits
(`src/src/main.cpp` lines 200-218), in program order: stop the sync
thread, force thrusters to `pwm_min`, run `thruster_disable` (which also
turns the LED channels off and disables PWM output), close the network,
stop the GStreamer pipelines. -/
def cleanupSequence (cfg : AppConfig) (ts : ThrusterState) : List Effect :=
  [Effect.stopSyncTask]
    ++ ((thruster_set_all_pwm cfg ts cfg.pwm_min).2.map Effect.pwmWrite)
    ++ (thruster_disable_writes cfg).map Effect.pwmWrite
    ++ [Effect.disablePwmOutput, Effect.closeNetwork, Effect.stopVideoPipelines]

/-- The whitespace set `" \t\n\r\f\v"` used by both `trim` helpers
(`src/src/config.cpp` line 41, `src/src/config_synchronizer.cpp` line 23). -/
def isCppSpace (c : Char) : Bool :=
  c = ' ' ∨ c = '\t' ∨ c = '\n' ∨ c = '\r' ∨ c = Char.ofNat 12 ∨ c = Char.ofNat 11

/-- `trim` (`src/src/config.cpp` lines 41-46): strip leading and trailing
whitespace, returning the input unchanged when it is all whitespace. -/
def trimChars (cs : List Char) : List Char :=
  if cs.all isCppSpace then cs
  else ((cs.dropWhile isCppSpace).reverse.dropWhile isCppSpace).reverse

/-- `std::tolower` on an ASCII character. -/
def toLowerChar (c : Char) : Char :=
  if 'A' ≤ c ∧ c ≤ 'Z' then Char.ofNat (c.toNat + 32) else c

/-- `toLower` (`src/src/config.cpp` lines 49-53). -/
def toLowerChars (cs : List Char) : List Char := cs.map toLowerChar

/-- Decimal digit test. -/
def isDigitChar (c : Char) : Bool := '0' ≤ c ∧ c ≤ '9'

/-- Value of a string of decimal digits. -/
def digitsToNat (cs : List Char) : ℕ :=
  cs.foldl (fun a c => 10 * a + (c.toNat - 48)) 0

/-- Leading sign of a C numeric literal. -/
def splitSign : List Char → Bool × List Char
  | '-' :: r => (true, r)
  | '+' :: r => (false, r)
  | cs => (false, cs)

/-- `std::stoi`: skip whitespace, optional sign, at least one decimal
digit, ignore any trailing characters; `none` models the
`invalid_argument` (no digits) and `out_of_range` (outside `int`)
exceptions that `loadConfig` catches. -/
def stoiOpt (cs : List Char) : Option ℤ :=
  let cs1 := cs.dropWhile isCppSpace
  let sr := splitSign cs1
  let ds := sr.2.takeWhile isDigitChar
  if ds = [] then none
  else
    let x : ℤ := if sr.1 then -(digitsToNat ds : ℤ) else (digitsToNat ds : ℤ)
    if x < -(2 ^ 31) ∨ 2 ^ 31 ≤ x then none else some x

/-- `std::stoul` followed by the implicit conversion to an `unsigned int`
field: a negative literal wraps modulo `2^64` (as `strtoul` specifies) and
the store truncates modulo `2^32`; `none` models `invalid_argument` and
`out_of_range`. -/
def stoulOpt (cs : List Char) : Option ℕ :=
  let cs1 := cs.dropWhile isCppSpace
  let sr := splitSign cs1
  let ds := sr.2.takeWhile isDigitChar
  if ds = [] then none
  else
    let v := digitsToNat ds
    if 2 ^ 64 ≤ v then none
    else some ((if sr.1 then (2 ^ 64 - v) % 2 ^ 64 else v) % 2 ^ 32)

/-- Leading decimal digits of a literal: value, digit count, remainder. -/
def parseDigits (cs : List Char) : ℕ × ℕ × List Char :=
  let ds := cs.takeWhile isDigitChar
  (digitsToNat ds, ds.length, cs.drop ds.length)

/-- `std::stof`/`std::stod` on the decimal forms
`[sign] digits [. digits] [e [sign] digits]` (longest valid prefix, as
`strtof` specifies; an incomplete exponent is ignored).  Hexadecimal,
infinity and NaN forms, and float overflow/underflow are not modelled —
no configuration value in this repository uses them. -/
def stofOpt (cs : List Char) : Option ℚ :=
  let cs1 := cs.dropWhile isCppSpace
  let sr := splitSign cs1
  let ipr := parseDigits sr.2
  let fpr :=
    match ipr.2.2 with
    | '.' :: r => parseDigits r
    | _ => (0, 0, ipr.2.2)
  if ipr.2.1 + fpr.2.1 = 0 then none
  else
    let mant : ℚ := (ipr.1 : ℚ) + (fpr.1 : ℚ) / ((10 : ℚ) ^ fpr.2.1)
    let ex : ℤ :=
      match fpr.2.2 with
      | 'e' :: r =>
        let esr := splitSign r
        let epr := parseDigits esr.2
        if epr.2.1 = 0 then 0 else if esr.1 then -(epr.1 : ℤ) else (epr.1 : ℤ)
      | 'E' :: r =>
        let esr := splitSign r
        let epr := parseDigits esr.2
        if epr.2.1 = 0 then 0 else if esr.1 then -(epr.1 : ℤ) else (epr.1 : ℤ)
      | _ => 0
    some ((if sr.1 then -mant else mant) * (10 : ℚ) ^ ex)

/-- View of a character list as a string. -/
def lstr (cs : List Char) : String := String.mk cs

/-- The per-section key dispatch of `loadConfig` (`src/src/config.cpp`
lines 92-162): apply one `key = value` pair to the temporary record.
`sec` and `key` are already lower-cased and trimmed.  `none` models a
thrown `invalid_argument`/`out_of_range`; unknown sections and keys are
ignored, as in the source. -/
def applyKV (sec key : String) (value : List Char) (c : AppConfig) : Option AppConfig :=
  if sec = "pwm" then
    if key = "pwm_min" then (stoiOpt value).map fun v => { c with pwm_min := v }
    else if key = "pwm_neutral" then (stoiOpt value).map fun v => { c with pwm_neutral := v }
    else if key = "pwm_normal_max" then (stoiOpt value).map fun v => { c with pwm_normal_max := v }
    else if key = "pwm_boost_max" then (stoiOpt value).map fun v => { c with pwm_boost_max := v }
    else if key = "pwm_frequency" then (stofOpt value).map fun v => { c with pwm_frequency := v }
    else some c
  else if sec = "joystick" then
    if key = "deadzone" then (stoiOpt value).map fun v => { c with joystick_deadzone := v }
    else some c
  else if sec = "led" then
    if key = "channel" then (stoiOpt value).map fun v => { c with led_pwm_channel := v }
    else if key = "on_value" then (stoiOpt value).map fun v => { c with led_pwm_on := v }
    else if key = "off_value" then (stoiOpt value).map fun v => { c with led_pwm_off := v }
    else some c
  else if sec = "led2" then
    if key = "channel" then (stoiOpt value).map fun v => { c with led2_pwm_channel := v }
    else if key = "off_value" then (stoiOpt value).map fun v => { c with led2_pwm_off := v }
    else if key = "on1_value" then (stoiOpt value).map fun v => { c with led2_pwm_on1 := v }
    else if key = "on2_value" then (stoiOpt value).map fun v => { c with led2_pwm_on2 := v }
    else if key = "max_value" then (stoiOpt value).map fun v => { c with led2_pwm_max := v }
    else some c
  else if sec = "led3" then
    if key = "channel" then (stoiOpt value).map fun v => { c with led3_pwm_channel := v }
    else if key = "off_value" then (stoiOpt value).map fun v => { c with led3_pwm_off := v }
    else if key = "on1_value" then (stoiOpt value).map fun v => { c with led3_pwm_on1 := v }
    else if key = "on2_value" then (stoiOpt value).map fun v => { c with led3_pwm_on2 := v }
    else if key = "max_value" then (stoiOpt value).map fun v => { c with led3_pwm_max := v }
    else some c
  else if sec = "led4" then
    if key = "channel" then (stoiOpt value).map fun v => { c with led4_pwm_channel := v }
    else if key = "off_value" then (stoiOpt value).map fun v => { c with led4_pwm_off := v }
    else if key = "on1_value" then (stoiOpt value).map fun v => { c with led4_pwm_on1 := v }
    else if key = "on2_value" then (stoiOpt value).map fun v => { c with led4_pwm_on2 := v }
    else if key = "max_value" then (stoiOpt value).map fun v => { c with led4_pwm_max := v }
    else some c
  else if sec = "led5" then
    if key = "channel" then (stoiOpt value).map fun v => { c with led5_pwm_channel := v }
    else if key = "off_value" then (stoiOpt value).map fun v => { c with led5_pwm_off := v }
    else if key = "on1_value" then (stoiOpt value).map fun v => { c with led5_pwm_on1 := v }
    else if key = "on2_value" then (stoiOpt value).map fun v => { c with led5_pwm_on2 := v }
    else if key = "max_value" then (stoiOpt value).map fun v => { c with led5_pwm_max := v }
    else some c
  else if sec = "thruster_control" then
    if key = "smoothing_factor_horizontal" then
      (stofOpt value).map fun v => { c with smoothing_factor_horizontal := v }
    else if key = "smoothing_factor_vertical" then
      (stofOpt value).map fun v => { c with smoothing_factor_vertical := v }
    else if key = "kp_roll" then (stofOpt value).map fun v => { c with kp_roll := v }
    else if key = "kp_yaw" then (stofOpt value).map fun v => { c with kp_yaw := v }
    else if key = "yaw_threshold_dps" then
      (stofOpt value).map fun v => { c with yaw_threshold_dps := v }
    else if key = "yaw_gain" then (stofOpt value).map fun v => { c with yaw_gain := v }
    else some c
  else if sec = "network" then
    if key = "recv_port" then (stoiOpt value).map fun v => { c with network_recv_port := v }
    else if key = "send_port" then (stoiOpt value).map fun v => { c with network_send_port := v }
    else if key = "client_host" then some { c with client_host := lstr value }
    else if key = "connection_timeout_seconds" then
      (stofOpt value).map fun v => { c with connection_timeout_seconds := v }
    else some c
  else if sec = "application" then
    if key = "sensor_send_interval" then
      (stoulOpt value).map fun v => { c with sensor_send_interval := v }
    else if key = "loop_delay_us" then (stoulOpt value).map fun v => { c with loop_delay_us := v }
    else some c
  else if sec = "gstreamer_camera_1" then
    if key = "port" then (stoiOpt value).map fun v => { c with gst1_port := v }
    else if key = "width" then (stoiOpt value).map fun v => { c with gst1_width := v }
    else if key = "height" then (stoiOpt value).map fun v => { c with gst1_height := v }
    else if key = "framerate_num" then (stoiOpt value).map fun v => { c with gst1_framerate_num := v }
    else if key = "framerate_den" then (stoiOpt value).map fun v => { c with gst1_framerate_den := v }
    else if key = "is_h264_native_source" then
      some { c with gst1_is_h264_native_source := lstr (toLowerChars value) = "true" }
    else if key = "rtp_payload_type" then
      (stoiOpt value).map fun v => { c with gst1_rtp_payload_type := v }
    else if key = "rtp_config_interval" then
      (stoiOpt value).map fun v => { c with gst1_rtp_config_interval := v }
    else some c
  else if sec = "gstreamer_camera_2" then
    if key = "port" then (stoiOpt value).map fun v => { c with gst2_port := v }
    else if key = "width" then (stoiOpt value).map fun v => { c with gst2_width := v }
    else if key = "height" then (stoiOpt value).map fun v => { c with gst2_height := v }
    else if key = "framerate_num" then (stoiOpt value).map fun v => { c with gst2_framerate_num := v }
    else if key = "framerate_den" then (stoiOpt value).map fun v => { c with gst2_framerate_den := v }
    else if key = "is_h264_native_source" then
      some { c with gst2_is_h264_native_source := lstr (toLowerChars value) = "true" }
    else if key = "rtp_payload_type" then
      (stoiOpt value).map fun v => { c with gst2_rtp_payload_type := v }
    else if key = "rtp_config_interval" then
      (stoiOpt value).map fun v => { c with gst2_rtp_config_interval := v }
    else if key = "x264_bitrate" then (stoiOpt value).map fun v => { c with gst2_x264_bitrate := v }
    else if key = "x264_tune" then some { c with gst2_x264_tune := lstr value }
    else if key = "x264_speed_preset" then some { c with gst2_x264_speed_preset := lstr value }
    else some c
  else if sec = "config_sync" then
    if key = "cpp_recv_port" then
      (stoiOpt value).map fun v => { c with config_sync_cpp_recv_port := v }
    else if key = "wpf_host" then some { c with config_sync_wpf_host := lstr value }
    else if key = "wpf_recv_port" then
      (stoiOpt value).map fun v => { c with config_sync_wpf_recv_port := v }
    else some c
  else some c

/-- First `=` split of a config line (`line.find en config.cpp` line 83):
key part and value part, or `none` when the line has no `=`. -/
def splitEq (cs : List Char) : Option (List Char × List Char) :=
  let k := cs.takeWhile fun c => ¬(c = '=')
  if k.length = cs.length then none
  else some (k, cs.drop (k.length + 1))

/-- The line loop of `loadConfig` (`src/src/config.cpp` lines 70-170):
carry the current section and the temporary record; skip blank and comment
lines, switch sections on `[...]` lines, skip lines without `=`, and abort
(`none`) on the first numeric-conversion failure. -/
def loadConfigGo (sec : String) (acc : AppConfig) : List (List Char) → Option AppConfig
  | [] => some acc
  | l :: ls =>
    let t := trimChars l
    if t = [] ∨ t.head? = some '#' ∨ t.head? = some ';' then loadConfigGo sec acc ls
    else if t.head? = some '[' ∧ t.getLast? = some ']' then
      loadConfigGo (lstr (toLowerChars (t.drop 1).dropLast)) acc ls
    else
      match splitEq t with
      | none => loadConfigGo sec acc ls
      | some kv =>
        match applyKV sec (lstr (toLowerChars (trimChars kv.1))) (trimChars kv.2) acc with
        | none => none
        | some acc2 => loadConfigGo sec acc2 ls

/-- `loadConfig` (`src/src/config.cpp` lines 55-180) on an already-read
file: parse every line into a fresh temporary record seeded with the
defaults; on full success replace the shared record wholesale and return
`true`, on any numeric-conversion failure return `false` and leave the
shared record `g` untouched. -/
def loadConfig (lines : List (List Char)) (g : AppConfig) : Bool × AppConfig :=
  match loadConfigGo "" defaultConfig lines with
  | none => (false, g)
  | some t => (true, t)

/-- The Section Map `g_sync_config_data`
(`src/src/config_synchronizer.cpp` line 33): ordered
`(section, key) → value` pairs. -/
abbrev SectionMap := List ((String × String) × String)

/-- `std::map` upsert: replace the value of an existing key in place,
append a new key. -/
def upsertSM : SectionMap → String × String → String → SectionMap
  | [], k, v => [(k, v)]
  | (k0, v0) :: rest, k, v =>
    if k0 = k then (k0, v) :: rest else (k0, v0) :: upsertSM rest k v

/-- Value of a key in the Section Map. -/
def lookupSM : SectionMap → String × String → Option String
  | [], _ => none
  | (k0, v0) :: rest, k => if k0 = k then some v0 else lookupSM rest k

/-- `std::string::find(c, start)` on a character list: index of the first
occurrence of `c` at position `start` or later. -/
def strFind (cs : List Char) (c : Char) (start : ℕ) : Option ℕ :=
  let pre := (cs.drop start).takeWhile fun x => ¬(x = c)
  if pre.length = (cs.drop start).length then none else some (start + pre.length)

/-- One line of the sync wire payload as `update_config_from_string`
dissects it (`src/src/config_synchronizer.cpp` lines 154-165): the line
must start with `[`, contain a `]`, and contain an `=` at or after that
`]`; the pieces are `section` (between `[` and the first `]`), `key`
(between that `]` and the first `=` after it) and `value` (the rest).
Returns `none` for a malformed line. -/
def parseWireLine (cs : List Char) : Option (String × String × String) :=
  if cs.head? = some '[' then
    match strFind cs ']' 0 with
    | none => none
    | some se =>
      match strFind cs '=' se with
      | none => none
      | some eq =>
        some (lstr ((cs.drop 1).take (se - 1)),
              lstr ((cs.drop (se + 1)).take (eq - (se + 1))),
              lstr (cs.drop (eq + 1)))
  else none

/-- Worker for `splitLinesNL`, structurally recursive on a fuel argument
(one unit per line; each recursive step drops at least one character, so
`length + 1` units always suffice). -/
def splitLinesGo : ℕ → List Char → List (List Char)
  | 0, _ => []
  | _, [] => []
  | fuel + 1, cs =>
    let pre := cs.takeWhile fun c => ¬(c = '\n')
    if pre.length = cs.length then [cs]
    else pre :: splitLinesGo fuel (cs.drop (pre.length + 1))

/-- `std::getline(ss, line, backslash-n)` looping until EOF: the payload
split at newlines, with no empty final segment after a trailing newline. -/
def splitLinesNL (cs : List Char) : List (List Char) := splitLinesGo (cs.length + 1) cs

/-- One iteration of the line loop of `update_config_from_string`: skip a
malformed line, upsert a well-formed one and bump `updates_count`. -/
def wireStep (acc : SectionMap × ℕ) (l : List Char) : SectionMap × ℕ :=
  match parseWireLine l with
  | none => acc
  | some skv => (upsertSM acc.1 (skv.1, skv.2.1) skv.2.2, acc.2 + 1)

/-- The line loop of `update_config_from_string`
(`src/src/config_synchronizer.cpp` lines 146-167): upsert every
well-formed line into the Section Map, skip malformed lines individually,
and count the upserts. -/
def update_config_from_string (payload : List Char) (m : SectionMap) : SectionMap × ℕ :=
  (splitLinesNL payload).foldl wireStep (m, 0)

/-- The observable outcome of processing one received payload. -/
structure SyncOutcome where
  map : SectionMap
  saved : Bool
  reloadFlagRaised : Bool

/-- Processing one received payload
(`src/src/config_synchronizer.cpp` lines 146-175): apply
`update_config_from_string`, then persist the Section Map to the config
file and raise `g_config_updated_flag` only when at least one item was
updated. -/
def processPayload (payload : List Char) (m : SectionMap) : SyncOutcome :=
  let r := update_config_from_string payload m
  { map := r.1, saved := decide (0 < r.2), reloadFlagRaised := decide (0 < r.2) }

/-! ## Supporting lemmas -/

/-- A driver write within the clamped range, carrying the duty-cycle
formula of `set_thruster_pwm`. -/
def writeOk (cfg : AppConfig) (w : Write) : Prop :=
  cfg.pwm_min ≤ w.pulse ∧ w.pulse ≤ cfg.pwm_boost_max ∧
    w.duty = (w.pulse : ℚ) / (1000000 / cfg.pwm_frequency)

lemma set_thruster_pwm_writeOk (cfg : AppConfig) (h : cfg.pwm_min ≤ cfg.pwm_boost_max)
    (ch p : ℤ) : writeOk cfg (set_thruster_pwm cfg ch p) :=
  ⟨le_max_left _ _, max_le h (min_le_right _ _), rfl⟩

lemma map_value_zero_bounds (x a b R : ℚ) (hR : 0 ≤ R) :
    0 ≤ map_value x a b 0 R ∧ map_value x a b 0 R ≤ R := by
  unfold map_value
  by_cases hba : b = a
  · simp [hba, hR]
  · rw [if_neg hba]
    rcases lt_or_gt_of_ne hba with hlt | hgt
    · have hxc : max a (min x b) = a :=
        max_eq_left (le_of_lt (lt_of_le_of_lt (min_le_right x b) hlt))
      simp [hxc, hR]
    · have h1 : a ≤ max a (min x b) := le_max_left _ _
      have h2 : max a (min x b) ≤ b := max_le (le_of_lt hgt) (min_le_right _ _)
      have hpos : (0 : ℚ) < b - a := sub_pos.mpr hgt
      constructor
      · have := div_nonneg (mul_nonneg (sub_nonneg.mpr h1) (by linarith : (0:ℚ) ≤ R - 0))
          (le_of_lt hpos)
        simpa using this
      · have hmul : (max a (min x b) - a) * (R - 0) ≤ (b - a) * R := by
          nlinarith
        have := (div_le_iff₀ hpos).mpr (by linarith [hmul] : (max a (min x b) - a) * (R - 0) ≤ R * (b - a))
        simpa using this

lemma cTrunc_bounds (q : ℚ) (n : ℤ) (h0 : 0 ≤ q) (hn : q ≤ (n : ℚ)) :
    0 ≤ cTrunc q ∧ cTrunc q ≤ n := by
  unfold cTrunc
  rw [if_pos h0]
  exact ⟨Int.floor_nonneg.mpr h0,
    (Int.floor_le_floor hn).trans (le_of_eq (Int.floor_intCast n))⟩

lemma boost_add_bounds (cfg : AppConfig) (gd : GamepadData)
    (hnb : cfg.pwm_normal_max ≤ cfg.pwm_boost_max) :
    0 ≤ boost_add cfg gd ∧ boost_add cfg gd ≤ cfg.pwm_boost_max - cfg.pwm_normal_max := by
  have hR : (0 : ℚ) ≤ (cfg.pwm_boost_max : ℚ) - (cfg.pwm_normal_max : ℚ) := by
    rw [sub_nonneg]
    exact_mod_cast hnb
  obtain ⟨hb0, hb1⟩ := map_value_zero_bounds
    ((min |gd.leftThumbX| |gd.rightThumbX| : ℤ) : ℚ) (cfg.joystick_deadzone : ℚ) 32768 _ hR
  have hcast : ((cfg.pwm_boost_max : ℚ) - (cfg.pwm_normal_max : ℚ)) =
      (((cfg.pwm_boost_max - cfg.pwm_normal_max : ℤ)) : ℚ) := by push_cast; ring
  exact cTrunc_bounds _ (cfg.pwm_boost_max - cfg.pwm_normal_max) hb0 (hcast ▸ hb1)

/-! ## Claim theorems -/

/-- C9: for the forward/back channels 4 and 5, `thruster_update`
interpolates with `smoothing_factor_vertical` only when the target strictly
exceeds the current smoothed value (and then moves strictly toward the
target without overshooting it), while a lower-or-equal target is adopted
immediately, within the same tick. -/
theorem C9_forward_snap_and_ramp (cfg : AppConfig) (current target : ℚ)
    (hs0 : 0 < cfg.smoothing_factor_vertical) (hs1 : cfg.smoothing_factor_vertical ≤ 1) :
    (target ≤ current → forwardSmoothStep cfg current target = target) ∧
    (current < target →
      forwardSmoothStep cfg current target =
        smooth_interpolate current target cfg.smoothing_factor_vertical ∧
      current < forwardSmoothStep cfg current target ∧
      forwardSmoothStep cfg current target ≤ target) ∧
    (∀ ts gd gyro,
      (thruster_update cfg ts gd gyro).1.pwm4 =
        forwardSmoothStep cfg ts.pwm4 ((calculate_forward_reverse_pwm cfg gd.rightThumbY : ℤ) : ℚ) ∧
      (thruster_update cfg ts gd gyro).1.pwm5 =
        forwardSmoothStep cfg ts.pwm5 ((calculate_forward_reverse_pwm cfg gd.rightThumbY : ℤ) : ℚ)) := by
  refine ⟨?_, ?_, fun ts gd gyro => ⟨rfl, rfl⟩⟩
  · intro h
    simp [forwardSmoothStep, not_lt.mpr h]
  · intro h
    have hstep : forwardSmoothStep cfg current target =
        smooth_interpolate current target cfg.smoothing_factor_vertical := by
      simp [forwardSmoothStep, h]
    refine ⟨hstep, ?_, ?_⟩
    · rw [hstep]
      have := mul_pos (sub_pos.mpr h) hs0
      simp only [smooth_interpolate]
      linarith
    · rw [hstep]
      have h2 : (target - current) * cfg.smoothing_factor_vertical ≤ (target - current) * 1 :=
        mul_le_mul_of_nonneg_left hs1 (by linarith)
      simp only [smooth_interpolate]
      linarith

/-- C9 witness: concrete instantiation with the default vertical smoothing
factor, a deceleration (snap) case and an acceleration (ramp) case. -/
theorem C9_forward_snap_and_ramp_witness :
    (0 < defaultConfig.smoothing_factor_vertical ∧ defaultConfig.smoothing_factor_vertical ≤ 1) ∧
    ((1100 : ℚ) ≤ 1900 → forwardSmoothStep defaultConfig 1900 1100 = 1100) ∧
    ((1100 : ℚ) < 1900 →
      forwardSmoothStep defaultConfig 1100 1900 =
        smooth_interpolate 1100 1900 defaultConfig.smoothing_factor_vertical ∧
      (1100 : ℚ) < forwardSmoothStep defaultConfig 1100 1900 ∧
      forwardSmoothStep defaultConfig 1100 1900 ≤ 1900) := by
  have h01 : (0 : ℚ) < defaultConfig.smoothing_factor_vertical ∧
      defaultConfig.smoothing_factor_vertical ≤ 1 := by
    norm_num [defaultConfig]
  exact ⟨h01,
    (C9_forward_snap_and_ramp defaultConfig 1900 1100 h01.1 h01.2).1,
    (C9_forward_snap_and_ramp defaultConfig 1100 1900 h01.1 h01.2).2.1⟩

/-- C10: in `thruster_update`, each accessory's state changes exactly on a
rising edge of its bound button (pressed now, not pressed the previous
tick) and is otherwise unchanged; accessory 1 toggles OFF↔ON with period 2,
and accessories 2-5 advance OFF→ON1→ON2→MAX→OFF, returning to the same
state after 4 edges. -/
theorem C10_accessory_state_machine (cfg : AppConfig) (ts : ThrusterState)
    (gd : GamepadData) (gyro : AxisData) :
    ((thruster_update cfg ts gd gyro).1.led1 =
        (if risingEdge ts.prevY gd.buttons.y then toggleLed ts.led1 else ts.led1) ∧
     (thruster_update cfg ts gd gyro).1.led2 =
        (if risingEdge ts.prevUp gd.buttons.dpadUp then cycleLed ts.led2 else ts.led2) ∧
     (thruster_update cfg ts gd gyro).1.led3 =
        (if risingEdge ts.prevDown gd.buttons.dpadDown then cycleLed ts.led3 else ts.led3) ∧
     (thruster_update cfg ts gd gyro).1.led4 =
        (if risingEdge ts.prevLeft gd.buttons.dpadLeft then cycleLed ts.led4 else ts.led4) ∧
     (thruster_update cfg ts gd gyro).1.led5 =
        (if risingEdge ts.prevRight gd.buttons.dpadRight then cycleLed ts.led5 else ts.led5) ∧
     (thruster_update cfg ts gd gyro).1.prevY = gd.buttons.y ∧
     (thruster_update cfg ts gd gyro).1.prevUp = gd.buttons.dpadUp ∧
     (thruster_update cfg ts gd gyro).1.prevDown = gd.buttons.dpadDown ∧
     (thruster_update cfg ts gd gyro).1.prevLeft = gd.buttons.dpadLeft ∧
     (thruster_update cfg ts gd gyro).1.prevRight = gd.buttons.dpadRight) ∧
    (toggleLed LedState.off = LedState.on ∧ toggleLed LedState.on = LedState.off ∧
     toggleLed (toggleLed LedState.off) = LedState.off ∧
     toggleLed (toggleLed LedState.on) = LedState.on) ∧
    (cycleLed LedState.off = LedState.on1 ∧ cycleLed LedState.on1 = LedState.on2 ∧
     cycleLed LedState.on2 = LedState.max ∧ cycleLed LedState.max = LedState.off ∧
     cycleLed (cycleLed (cycleLed (cycleLed LedState.off))) = LedState.off ∧
     cycleLed (cycleLed (cycleLed (cycleLed LedState.on1))) = LedState.on1 ∧
     cycleLed (cycleLed (cycleLed (cycleLed LedState.on2))) = LedState.on2 ∧
     cycleLed (cycleLed (cycleLed (cycleLed LedState.max))) = LedState.max) :=
  ⟨⟨rfl, rfl, rfl, rfl, rfl, rfl, rfl, rfl, rfl, rfl⟩, by decide, by decide⟩

/-- C3: every pulse width written through the driver — by
`set_thruster_pwm` directly and hence by every write `thruster_update`,
`thruster_set_all_pwm` and `thruster_disable` emit — is clamped into
`[pwm_min, pwm_boost_max]` and converted to the duty cycle
`clamped / (1000000 / pwm_frequency)`. -/
theorem C3_every_write_clamped (cfg : AppConfig) (h : cfg.pwm_min ≤ cfg.pwm_boost_max) :
    (∀ ch p : ℤ, writeOk cfg (set_thruster_pwm cfg ch p)) ∧
    (∀ ts gd gyro, ∀ w ∈ (thruster_update cfg ts gd gyro).2, writeOk cfg w) ∧
    (∀ ts v, ∀ w ∈ (thruster_set_all_pwm cfg ts v).2, writeOk cfg w) ∧
    (∀ w ∈ thruster_disable_writes cfg, writeOk cfg w) := by
  have hw := set_thruster_pwm_writeOk cfg h
  refine ⟨fun ch p => hw ch p, ?_, ?_, ?_⟩
  · intro ts gd gyro w hmem
    simp only [thruster_update, List.mem_cons, List.not_mem_nil, or_false] at hmem
    rcases hmem with rfl | rfl | rfl | rfl | rfl | rfl | rfl | rfl | rfl | rfl | rfl <;>
      exact hw _ _
  · intro ts v w hmem
    simp only [thruster_set_all_pwm, List.mem_cons, List.not_mem_nil, or_false] at hmem
    rcases hmem with rfl | rfl | rfl | rfl | rfl | rfl <;> exact hw _ _
  · intro w hmem
    simp only [thruster_disable_writes, List.mem_cons, List.not_mem_nil, or_false] at hmem
    rcases hmem with rfl | rfl | rfl | rfl | rfl | rfl | rfl | rfl | rfl | rfl | rfl <;>
      exact hw _ _

/-- C3 witness: with the default configuration (`pwm_min = 1100 ≤ 1900 =
pwm_boost_max`), an out-of-range request on channel 0 is clamped and
converted per the duty formula. -/
theorem C3_every_write_clamped_witness :
    defaultConfig.pwm_min ≤ defaultConfig.pwm_boost_max ∧
    writeOk defaultConfig (set_thruster_pwm defaultConfig 0 2500) :=
  ⟨by decide, (C3_every_write_clamped defaultConfig (by decide)).1 0 2500⟩

/-- C8 (amended): with both stick axes inside the deadzone, all four
horizontal targets equal `pwm_min` PROVIDED the idle-yaw correction is also
inactive, i.e. the measured yaw rate does not exceed
`yaw_threshold_dps` in magnitude.  The original claim, which allowed any
gyro sample, fails: see `C8_deadzone_counterexample`. -/
theorem C8_deadzone_neutral (cfg : AppConfig) (gd : GamepadData) (gyro : AxisData)
    (hl : |gd.leftThumbX| ≤ cfg.joystick_deadzone)
    (hr : |gd.rightThumbX| ≤ cfg.joystick_deadzone)
    (hy : |(-gyro.z)| ≤ cfg.yaw_threshold_dps) :
    ∀ i : Fin 4, (update_horizontal_thrusters cfg gd gyro).get i = cfg.pwm_min := by
  have hl2 := abs_le.mp hl
  have hr2 := abs_le.mp hr
  have hlx : ¬(|gd.leftThumbX| > cfg.joystick_deadzone) := not_lt.mpr hl
  have hrx : ¬(|gd.rightThumbX| > cfg.joystick_deadzone) := not_lt.mpr hr
  have hplx : pwm_lx cfg gd = ⟨cfg.pwm_min, cfg.pwm_min, cfg.pwm_min, cfg.pwm_min⟩ := by
    simp [pwm_lx, not_lt.mpr hl2.1, not_lt.mpr hl2.2]
  have hprx : pwm_rx cfg gd = ⟨cfg.pwm_min, cfg.pwm_min, cfg.pwm_min, cfg.pwm_min⟩ := by
    simp [pwm_rx, not_lt.mpr hr2.1, not_lt.mpr hr2.2]
  have hy3 : ¬(cfg.yaw_threshold_dps < |gyro.z|) := by
    rw [abs_neg] at hy
    exact not_lt.mpr hy
  have hfin : update_horizontal_thrusters cfg gd gyro =
      ⟨cfg.pwm_min, cfg.pwm_min, cfg.pwm_min, cfg.pwm_min⟩ := by
    simp [update_horizontal_thrusters, combineTargets, hlx, hrx, hplx, hprx, maxTargets,
      idleYawCorrection, hy3]
  intro i
  rw [hfin]
  fin_cases i <;> rfl

/-- C8 witness: neutral sticks and a perfectly still gyro under the
default configuration yield `pwm_min` on every horizontal channel. -/
theorem C8_deadzone_neutral_witness :
    |GamepadData.zero.leftThumbX| ≤ defaultConfig.joystick_deadzone ∧
    |GamepadData.zero.rightThumbX| ≤ defaultConfig.joystick_deadzone ∧
    |(-(AxisData.mk 0 0 0).z)| ≤ defaultConfig.yaw_threshold_dps ∧
    ∀ i : Fin 4,
      (update_horizontal_thrusters defaultConfig GamepadData.zero (AxisData.mk 0 0 0)).get i =
        defaultConfig.pwm_min :=
  ⟨by decide, by decide, by norm_num [defaultConfig],
   C8_deadzone_neutral defaultConfig GamepadData.zero (AxisData.mk 0 0 0)
     (by decide) (by decide) (by norm_num [defaultConfig])⟩

/-- A gyro sample spinning about the vertical axis. -/
def gyroSpin : AxisData := ⟨0, 0, -10⟩

/-- C7: when both the rotation and strafe axes exceed the deadzone, the
combining stage gives exactly one channel — the one designated by the four
mutually exclusive sign combinations — the per-channel max of the two
contributions plus the boost, the other three the plain max; and the boost
lies within `[0, pwm_boost_max - pwm_normal_max]`, being the clamped
linear map of the weaker magnitude from `[deadzone, 32768]` onto that
range. -/
theorem C7_boost_exactly_one_channel (cfg : AppConfig) (gd : GamepadData)
    (hl : |gd.leftThumbX| > cfg.joystick_deadzone)
    (hr : |gd.rightThumbX| > cfg.joystick_deadzone)
    (hnb : cfg.pwm_normal_max ≤ cfg.pwm_boost_max) :
    0 ≤ boost_add cfg gd ∧
    boost_add cfg gd ≤ cfg.pwm_boost_max - cfg.pwm_normal_max ∧
    ∀ i : Fin 4, (combineTargets cfg gd).get i =
      (maxTargets (pwm_lx cfg gd) (pwm_rx cfg gd)).get i +
        (if i = boostChannel gd.leftThumbX gd.rightThumbX then boost_add cfg gd else 0) := by
  obtain ⟨hb0, hb1⟩ := boost_add_bounds cfg gd hnb
  refine ⟨hb0, hb1, ?_⟩
  intro i
  by_cases h1 : gd.leftThumbX < 0 ∧ gd.rightThumbX < 0
  · fin_cases i <;>
      simp [combineTargets, boostChannel, hl, hr, h1.1, h1.2, HorizTargets.get]
  · by_cases h2 : gd.leftThumbX < 0 ∧ gd.rightThumbX > 0
    · fin_cases i <;>
        simp [combineTargets, boostChannel, hl, hr, h1, h2.1, h2.2, lt_asymm h2.2,
          HorizTargets.get]
    · by_cases h3 : gd.leftThumbX > 0 ∧ gd.rightThumbX < 0
      · fin_cases i <;>
          simp [combineTargets, boostChannel, hl, hr, h1, h2, h3.1, h3.2, lt_asymm h3.1,
            HorizTargets.get]
      · fin_cases i <;>
          simp [combineTargets, boostChannel, hl, hr, h1, h2, h3, HorizTargets.get]

/-- A configuration with headroom between `pwm_normal_max` and
`pwm_boost_max`, so the boost range is nontrivial. -/
def cfgBoost : AppConfig := { defaultConfig with pwm_boost_max := 2000 }

/-- A sample with rotation left and strafe left, both beyond the deadzone. -/
def gdDiag : GamepadData := ⟨-20000, -10000, 0, ⟨false, false, false, false, false⟩⟩

/-- C7 witness: concrete both-active sample under `cfgBoost`. -/
theorem C7_boost_exactly_one_channel_witness :
    |gdDiag.leftThumbX| > cfgBoost.joystick_deadzone ∧
    |gdDiag.rightThumbX| > cfgBoost.joystick_deadzone ∧
    cfgBoost.pwm_normal_max ≤ cfgBoost.pwm_boost_max ∧
    (0 ≤ boost_add cfgBoost gdDiag ∧
     boost_add cfgBoost gdDiag ≤ cfgBoost.pwm_boost_max - cfgBoost.pwm_normal_max ∧
     ∀ i : Fin 4, (combineTargets cfgBoost gdDiag).get i =
       (maxTargets (pwm_lx cfgBoost gdDiag) (pwm_rx cfgBoost gdDiag)).get i +
         (if i = boostChannel gdDiag.leftThumbX gdDiag.rightThumbX then boost_add cfgBoost gdDiag
          else 0)) :=
  ⟨by decide, by decide, by decide,
   C7_boost_exactly_one_channel cfgBoost gdDiag (by decide) (by decide) (by decide)⟩

/-- C8 counterexample: with both sticks inside the deadzone but a yaw rate
above the threshold, the idle-yaw correction raises channels 0 and 3 to
`pwm_min + 400 = 1500`, so not all horizontal targets equal `pwm_min` —
the claim as stated (any gyro sample) is false. -/
theorem C8_deadzone_counterexample :
    |GamepadData.zero.leftThumbX| ≤ defaultConfig.joystick_deadzone ∧
    |GamepadData.zero.rightThumbX| ≤ defaultConfig.joystick_deadzone ∧
    (update_horizontal_thrusters defaultConfig GamepadData.zero gyroSpin).get 0 ≠
      defaultConfig.pwm_min := by
  refine ⟨by decide, by decide, ?_⟩
  have hfin : update_horizontal_thrusters defaultConfig GamepadData.zero gyroSpin =
      ⟨1500, 1100, 1100, 1500⟩ := by
    norm_num [update_horizontal_thrusters, combineTargets, pwm_lx, pwm_rx, maxTargets,
      idleYawCorrection, cTrunc, defaultConfig, GamepadData.zero, gyroSpin, map_value]
  rw [hfin]
  simp [HorizTargets.get, defaultConfig]

lemma runLoop_never_contacted (cfg : AppConfig) (inputs : List TickInput) (s : LoopState)
    (hr : s.running = true) (hf : s.failsafe = true) (hp : s.peerKnown = false)
    (hin : ∀ j ∈ inputs, j.datagram = none) :
    (runLoop cfg s inputs).running = true ∧ (runLoop cfg s inputs).failsafe = true ∧
    (runLoop cfg s inputs).peerKnown = false := by
  induction inputs generalizing s with
  | nil => exact ⟨hr, hf, hp⟩
  | cons a l ih =>
    have ha : a.datagram = none := hin a (by simp)
    have hstep : (tick cfg s a).1 = { s with loopCounter := 0 } := by
      simp [tick, ha, hp, normalPhase, hf]
    rw [runLoop, if_pos hr, hstep]
    exact ih { s with loopCounter := 0 } hr hf hp (fun j hj => hin j (by simp [hj]))

/-- C1: once a peer has been observed and the loop is not already in
failsafe, a tick that receives no datagram with elapsed time beyond
`connection_timeout_seconds` programs all six thruster channels with
`pwm_min` and clears `running` (TERMINATING); and in any execution in
which no datagram ever arrives, the loop stays in its pre-contact failsafe
with `running` still true — the timeout transition never fires, regardless
of the tick timestamps. -/
theorem C1_connection_timeout (cfg : AppConfig) (s : LoopState) (inp : TickInput)
    (hmb : cfg.pwm_min ≤ cfg.pwm_boost_max)
    (hf : s.failsafe = false) (hp : s.peerKnown = true)
    (hnd : inp.datagram = none)
    (ht : inp.now - s.lastRecv > cfg.connection_timeout_seconds) :
    ((tick cfg s inp).1.running = false ∧
     (tick cfg s inp).1.failsafe = true ∧
     (∀ i : Fin 6, (tick cfg s inp).1.ts.pwm i = (cfg.pwm_min : ℚ)) ∧
     (∀ w ∈ (tick cfg s inp).2, w.pulse = cfg.pwm_min)) ∧
    (∀ inputs : List TickInput, (∀ j ∈ inputs, j.datagram = none) →
      (runLoop cfg (initialLoopState cfg) inputs).running = true ∧
      (runLoop cfg (initialLoopState cfg) inputs).failsafe = true ∧
      (runLoop cfg (initialLoopState cfg) inputs).peerKnown = false) := by
  have hpulse : ∀ ch : ℤ, (set_thruster_pwm cfg ch cfg.pwm_min).pulse = cfg.pwm_min := by
    intro ch
    simp [set_thruster_pwm, min_eq_left hmb]
  have htick : tick cfg s inp =
      ({ s with ts := (thruster_set_all_pwm cfg s.ts cfg.pwm_min).1,
                gamepad := GamepadData.zero, failsafe := true, running := false,
                loopCounter := 0 },
       (thruster_set_all_pwm cfg s.ts cfg.pwm_min).2) := by
    simp [tick, hnd, hp, hf, ht]
  constructor
  · refine ⟨by rw [htick], by rw [htick], ?_, ?_⟩
    · intro i
      rw [htick]
      fin_cases i <;> rfl
    · intro w hw
      rw [htick] at hw
      simp only [thruster_set_all_pwm, List.mem_cons, List.not_mem_nil, or_false] at hw
      rcases hw with rfl | rfl | rfl | rfl | rfl | rfl <;> exact hpulse _
  · intro inputs hin
    exact runLoop_never_contacted cfg inputs (initialLoopState cfg) rfl rfl rfl hin

/-- A loop state in normal operation whose previous vertical-acceleration
sign was negative. -/
def sRoll : LoopState :=
  { running := true, failsafe := false, peerKnown := true, lastRecv := 0, prevSign := -1,
    gamepad := GamepadData.zero, loopCounter := 0, ts := initThrusterState defaultConfig }

/-- A tick carrying a datagram whose accelerometer reads exactly zero on
the vertical axis. -/
def iRollZero : TickInput :=
  { now := 0, datagram := some GamepadData.zero, gyro := ⟨0, 0, 0⟩, accel := ⟨0, 0, 0⟩ }

/-- A tick carrying a datagram whose vertical acceleration is positive. -/
def iRollFlip : TickInput :=
  { now := 0, datagram := some GamepadData.zero, gyro := ⟨0, 0, 0⟩, accel := ⟨0, 0, 5⟩ }

/-- C1 witness: a concrete timed-out tick under the default configuration,
and a concrete never-contacted two-tick run. -/
theorem C1_connection_timeout_witness :
    (defaultConfig.pwm_min ≤ defaultConfig.pwm_boost_max ∧
     sRoll.running = true ∧ sRoll.failsafe = false ∧ sRoll.peerKnown = true ∧
     (TickInput.mk 1 none ⟨0, 0, 0⟩ ⟨0, 0, 0⟩).datagram = none ∧
     (1 : ℚ) - sRoll.lastRecv > defaultConfig.connection_timeout_seconds) ∧
    (tick defaultConfig sRoll (TickInput.mk 1 none ⟨0, 0, 0⟩ ⟨0, 0, 0⟩)).1.running = false ∧
    (∀ j ∈ [TickInput.mk 1 none ⟨0, 0, 0⟩ ⟨0, 0, 0⟩], j.datagram = none) ∧
    (runLoop defaultConfig (initialLoopState defaultConfig)
      [TickInput.mk 1 none ⟨0, 0, 0⟩ ⟨0, 0, 0⟩]).running = true := by
  have hhyps : defaultConfig.pwm_min ≤ defaultConfig.pwm_boost_max ∧
      sRoll.running = true ∧ sRoll.failsafe = false ∧ sRoll.peerKnown = true ∧
      (TickInput.mk 1 none ⟨0, 0, 0⟩ ⟨0, 0, 0⟩).datagram = none ∧
      (1 : ℚ) - sRoll.lastRecv > defaultConfig.connection_timeout_seconds := by
    refine ⟨by decide, rfl, rfl, rfl, rfl, ?_⟩
    norm_num [sRoll, defaultConfig]
  have hmain := C1_connection_timeout defaultConfig sRoll (TickInput.mk 1 none ⟨0, 0, 0⟩ ⟨0, 0, 0⟩)
    hhyps.1 hhyps.2.2.1 hhyps.2.2.2.1 hhyps.2.2.2.2.1 hhyps.2.2.2.2.2
  have hnone : ∀ j ∈ [TickInput.mk 1 none ⟨0, 0, 0⟩ ⟨0, 0, 0⟩],
      j.datagram = (none : Option GamepadData) := by
    intro j hj
    simp only [List.mem_singleton] at hj
    rw [hj]
  exact ⟨hhyps, hmain.1.1, hnone, (hmain.2 _ hnone).1⟩

/-- C2 (amended): on a tick where the rollover check runs (loop active, a
previous sign recorded), a sign flip forces TERMINATING on that same tick
ONLY IF the current vertical-acceleration reading is also nonzero — the
`current_accel.z != 0.0f` guard in the source.  The original claim, with
no nonzero condition, fails: see `C2_rollover_counterexample`. -/
theorem C2_rollover_amended (cfg : AppConfig) (s : LoopState) (inp : TickInput)
    (hprev : s.prevSign ≠ 0)
    (hsgn : sgn1 inp.accel.z ≠ s.prevSign) (hz : inp.accel.z ≠ 0) :
    (s.failsafe = false → s.running = true → (normalPhase cfg s inp).1.running = false) ∧
    (∀ d, inp.datagram = some d → s.running = true → (tick cfg s inp).1.running = false) := by
  constructor
  · intro hf hr
    simp [normalPhase, hf, hr, hprev, hsgn, hz]
  · intro d hd hr
    simp [tick, hd, normalPhase, hr, hprev, hsgn, hz]

/-- C2 witness: a positive reading after a recorded negative sign
terminates the loop on that tick. -/
theorem C2_rollover_amended_witness :
    (sRoll.prevSign ≠ 0 ∧
     sgn1 iRollFlip.accel.z ≠ sRoll.prevSign ∧ iRollFlip.accel.z ≠ 0) ∧
    (sRoll.failsafe = false → sRoll.running = true →
      (normalPhase defaultConfig sRoll iRollFlip).1.running = false) ∧
    (∀ d, iRollFlip.datagram = some d → sRoll.running = true →
      (tick defaultConfig sRoll iRollFlip).1.running = false) := by
  have h1 : sRoll.prevSign ≠ 0 := by norm_num [sRoll]
  have h2 : sgn1 iRollFlip.accel.z ≠ sRoll.prevSign := by norm_num [sgn1, iRollFlip, sRoll]
  have h3 : iRollFlip.accel.z ≠ 0 := by norm_num [iRollFlip]
  exact ⟨⟨h1, h2, h3⟩, (C2_rollover_amended defaultConfig sRoll iRollFlip h1 h2 h3).1,
    (C2_rollover_amended defaultConfig sRoll iRollFlip h1 h2 h3).2⟩

/-- C2 counterexample: with the previous sign negative and the current
reading exactly zero, the signs differ (the code's `copysign` sign of `0`
is `+1`, and the mathematical sign `0` also differs from `-1`), yet the
tick leaves `running` true — the claim as stated is false. -/
theorem C2_rollover_counterexample :
    sgn1 iRollZero.accel.z ≠ sRoll.prevSign ∧ sRoll.failsafe = false ∧
    sRoll.running = true ∧ sRoll.prevSign ≠ 0 ∧
    (tick defaultConfig sRoll iRollZero).1.running = true := by
  refine ⟨by norm_num [sgn1, iRollZero, sRoll], rfl, rfl, by norm_num [sRoll], ?_⟩
  norm_num [tick, iRollZero, sRoll, normalPhase, sgn1]

/-- C4: the claim says the shutdown sequence persists the five accessory
states to the on-disk snapshot; the code never does — `main`'s cleanup
block stops the sync thread, forces thrusters to `pwm_min`, disables PWM,
closes the network and stops the video pipelines, but contains no call to
`thruster_save_led_state_to_file`, so the snapshot `thruster_init` would
restore is never written.  This theorem records both the five effects that
are present and the persist effect that is absent. -/
theorem C4_shutdown_never_persists_accessories :
    Effect.saveLedStateFile ∉ cleanupSequence defaultConfig (initThrusterState defaultConfig) ∧
    Effect.stopSyncTask ∈ cleanupSequence defaultConfig (initThrusterState defaultConfig) ∧
    Effect.disablePwmOutput ∈ cleanupSequence defaultConfig (initThrusterState defaultConfig) ∧
    Effect.closeNetwork ∈ cleanupSequence defaultConfig (initThrusterState defaultConfig) ∧
    Effect.stopVideoPipelines ∈ cleanupSequence defaultConfig (initThrusterState defaultConfig) ∧
    ∀ i : Fin 6, Effect.pwmWrite (set_thruster_pwm defaultConfig (i : ℤ) defaultConfig.pwm_min) ∈
      cleanupSequence defaultConfig (initThrusterState defaultConfig) := by
  refine ⟨?_, ?_, ?_, ?_, ?_, ?_⟩
  · simp [cleanupSequence, thruster_set_all_pwm, thruster_disable_writes]
  · simp [cleanupSequence]
  · simp [cleanupSequence]
  · simp [cleanupSequence]
  · simp [cleanupSequence]
  · intro i
    fin_cases i <;>
      simp [cleanupSequence, thruster_set_all_pwm, thruster_disable_writes, defaultConfig]

/-- C5: `loadConfig` accumulates the parse into a temporary record seeded
with the defaults; it replaces the shared record with that temporary, as
one whole-record assignment, exactly when the parse of every line
succeeded; on any numeric-conversion failure it returns `false` with the
shared record untouched, so a failed hot-reload leaves the control loop on
its previous parameters. -/
theorem C5_load_config_all_or_nothing (lines : List (List Char)) (g : AppConfig) :
    ((loadConfig lines g).1 = false → (loadConfig lines g).2 = g) ∧
    (∀ t, loadConfigGo "" defaultConfig lines = some t → loadConfig lines g = (true, t)) ∧
    (loadConfigGo "" defaultConfig lines = none → loadConfig lines g = (false, g)) := by
  rcases h : loadConfigGo "" defaultConfig lines with _ | t
  · refine ⟨fun _ => ?_, fun t ht => ?_, fun _ => ?_⟩
    · simp [loadConfig, h]
    · exact absurd ht (by simp)
    · simp [loadConfig, h]
  · refine ⟨fun hfalse => ?_, fun t2 ht => ?_, fun hnone => ?_⟩
    · exact absurd hfalse (by simp [loadConfig, h])
    · injection ht with ht
      rw [← ht]
      simp [loadConfig, h]
    · exact absurd hnone (by simp)

/-- A config file whose `[pwm] pwm_min` value fails numeric conversion. -/
def badConfigLines : List (List Char) := ["[pwm]".toList, "pwm_min = abc".toList]

/-- A shared record that differs from the defaults, to exhibit that a
failed reload keeps it rather than resetting anything. -/
def gAltered : AppConfig := { defaultConfig with pwm_min := 1234 }

/-- C5 witness: the malformed file makes `loadConfig` report failure and
leave the pre-reload record exactly as it was. -/
theorem C5_load_config_all_or_nothing_witness :
    (loadConfig badConfigLines gAltered).1 = false ∧
    (loadConfig badConfigLines gAltered).2 = gAltered := by
  have h1 : (loadConfig badConfigLines gAltered).1 = false := by rfl
  exact ⟨h1, (C5_load_config_all_or_nothing badConfigLines gAltered).1 h1⟩

lemma takeWhile_append_cons (p : Char → Bool) (pre post : List Char) (c : Char)
    (hpre : ∀ x ∈ pre, p x = true) (hc : p c = false) :
    (pre ++ c :: post).takeWhile p = pre := by
  induction pre with
  | nil => simp [List.takeWhile_cons, hc]
  | cons a l ih =>
    have ha : p a = true := hpre a (List.mem_cons_self a l)
    simp [List.takeWhile_cons, ha, ih fun x hx => hpre x (List.mem_cons_of_mem a hx)]

lemma takeWhile_eq_self_of_all (p : Char → Bool) (l : List Char) (h : ∀ x ∈ l, p x = true) :
    l.takeWhile p = l := by
  induction l with
  | nil => rfl
  | cons a t ih =>
    simp [List.takeWhile_cons, h a (List.mem_cons_self a t),
      ih fun x hx => h x (List.mem_cons_of_mem a hx)]

lemma strFind_none (cs : List Char) (c : Char) (start : ℕ) (h : c ∉ cs) :
    strFind cs c start = none := by
  have hall : ∀ x ∈ cs.drop start, (fun x => decide ¬(x = c)) x = true := by
    intro x hx
    have : x ∈ cs := (List.drop_sublist start cs).subset hx
    simp only [decide_eq_true_eq]
    exact fun e => h (e ▸ this)
  simp only [strFind]
  rw [takeWhile_eq_self_of_all _ _ hall]
  simp

lemma strFind_split (cs : List Char) (start : ℕ) (pre post : List Char) (c : Char)
    (hdrop : cs.drop start = pre ++ c :: post) (hpre : c ∉ pre) :
    strFind cs c start = some (start + pre.length) := by
  have htw : (cs.drop start).takeWhile (fun x => decide ¬(x = c)) = pre := by
    rw [hdrop]
    refine takeWhile_append_cons _ pre post c (fun x hx => ?_) (by simp)
    simp only [decide_eq_true_eq]
    exact fun e => hpre (e ▸ hx)
  have hne : pre.length ≠ (cs.drop start).length := by
    rw [hdrop]
    simp only [List.length_append, List.length_cons]
    omega
  simp only [strFind, htw]
  rw [if_neg hne]

lemma parseWireLine_structural (s k v : List Char) (hs : ']' ∉ s) (hk : '=' ∉ k) :
    parseWireLine ('[' :: (s ++ ']' :: (k ++ '=' :: v))) = some (lstr s, lstr k, lstr v) := by
  have hsplit1 : ('[' :: (s ++ ']' :: (k ++ '=' :: v))) =
      ('[' :: s) ++ ']' :: (k ++ '=' :: v) := by simp
  have h1 : strFind ('[' :: (s ++ ']' :: (k ++ '=' :: v))) ']' 0 = some (s.length + 1) := by
    have := strFind_split ('[' :: (s ++ ']' :: (k ++ '=' :: v))) 0 ('[' :: s) (k ++ '=' :: v) ']'
      (by rw [List.drop_zero, hsplit1]) (by simp [hs])
    simpa using this
  have hdrop1 : ('[' :: (s ++ ']' :: (k ++ '=' :: v))).drop (s.length + 1) =
      ']' :: (k ++ '=' :: v) := by
    rw [hsplit1]
    have hdl : (('[' :: s) ++ ']' :: (k ++ '=' :: v)).drop ('[' :: s).length =
        ']' :: (k ++ '=' :: v) := List.drop_left _ _
    simp only [List.length_cons] at hdl
    exact hdl
  have h2 : strFind ('[' :: (s ++ ']' :: (k ++ '=' :: v))) '=' (s.length + 1) =
      some (s.length + 1 + (k.length + 1)) := by
    have := strFind_split ('[' :: (s ++ ']' :: (k ++ '=' :: v))) (s.length + 1) (']' :: k) v '='
      (by rw [hdrop1]; simp) (by simp [hk])
    simpa using this
  have hsec : (('[' :: (s ++ ']' :: (k ++ '=' :: v))).drop 1).take (s.length + 1 - 1) = s := by
    simp only [List.drop_succ_cons, List.drop_zero, Nat.add_sub_cancel]
    have : (s ++ (']' :: (k ++ '=' :: v))).take s.length = s := List.take_left _ _
    exact this
  have hkey : (('[' :: (s ++ ']' :: (k ++ '=' :: v))).drop (s.length + 1 + 1)).take
      (s.length + 1 + (k.length + 1) - (s.length + 1 + 1)) = k := by
    have hd2 : ('[' :: (s ++ ']' :: (k ++ '=' :: v))).drop (s.length + 1 + 1) = k ++ '=' :: v := by
      have : (('[' :: s) ++ ']' :: (k ++ '=' :: v)).drop (s.length + 1 + 1) =
          (']' :: (k ++ '=' :: v)).drop 1 := by
        rw [List.drop_append_eq_append_drop]
        simp
      rw [hsplit1, this]
      simp
    have harith : s.length + 1 + (k.length + 1) - (s.length + 1 + 1) = k.length := by omega
    rw [hd2, harith]
    exact List.take_left _ _
  have hval : ('[' :: (s ++ ']' :: (k ++ '=' :: v))).drop (s.length + 1 + (k.length + 1) + 1) =
      v := by
    have hfull : ('[' :: (s ++ ']' :: (k ++ '=' :: v))) =
        ('[' :: s ++ ']' :: k ++ ['=']) ++ v := by simp
    have hlen : ('[' :: s ++ ']' :: k ++ ['=']).length = s.length + 1 + (k.length + 1) + 1 := by
      simp only [List.length_append, List.length_cons, List.length_nil]
    rw [hfull, ← hlen]
    exact List.drop_left _ _
  simp only [parseWireLine, List.head?_cons, h1, h2]
  rw [hsec, hkey, hval]
  simp

/-- Spec-side view of the sync payload loop: per line, a malformed line
leaves the map unchanged and a well-formed line is upserted. -/
def applyWireLines (ls : List (List Char)) (m : SectionMap) : SectionMap :=
  ls.foldl
    (fun acc l =>
      match parseWireLine l with
      | none => acc
      | some skv => upsertSM acc (skv.1, skv.2.1) skv.2.2)
    m

lemma foldl_wireStep (ls : List (List Char)) (m : SectionMap) (n : ℕ) :
    ls.foldl wireStep (m, n) =
      (applyWireLines ls m, n + (ls.filter fun l => (parseWireLine l).isSome).length) := by
  induction ls generalizing m n with
  | nil => simp [applyWireLines]
  | cons a l ih =>
    cases hp : parseWireLine a with
    | none =>
      have hws : wireStep (m, n) a = (m, n) := by simp [wireStep, hp]
      have hfilter : List.filter (fun l => (parseWireLine l).isSome) (a :: l) =
          List.filter (fun l => (parseWireLine l).isSome) l := by
        simp [List.filter_cons, hp]
      have happ : applyWireLines (a :: l) m = applyWireLines l m := by
        simp [applyWireLines, hp]
      rw [List.foldl_cons, hws, ih, hfilter, happ]
    | some skv =>
      have hws : wireStep (m, n) a = (upsertSM m (skv.1, skv.2.1) skv.2.2, n + 1) := by
        simp [wireStep, hp]
      have hfilter : (List.filter (fun l => (parseWireLine l).isSome) (a :: l)).length =
          (List.filter (fun l => (parseWireLine l).isSome) l).length + 1 := by
        simp [List.filter_cons, hp]
      have happ : applyWireLines (a :: l) m =
          applyWireLines l (upsertSM m (skv.1, skv.2.1) skv.2.2) := by
        simp [applyWireLines, hp]
      rw [List.foldl_cons, hws, ih, hfilter, happ]
      simp only [Prod.mk.injEq, true_and]
      omega

lemma lookupSM_upsert_self (m : SectionMap) (key : String × String) (v : String) :
    lookupSM (upsertSM m key v) key = some v := by
  induction m with
  | nil => simp [upsertSM, lookupSM]
  | cons a t ih =>
    obtain ⟨k0, v0⟩ := a
    by_cases h : k0 = key
    · simp [upsertSM, lookupSM, h]
    · simp [upsertSM, lookupSM, h, ih]

lemma lookupSM_upsert_other (m : SectionMap) (key k2 : String × String) (v : String)
    (hne : k2 ≠ key) : lookupSM (upsertSM m key v) k2 = lookupSM m k2 := by
  induction m with
  | nil => simp [upsertSM, lookupSM, Ne.symm hne]
  | cons a t ih =>
    obtain ⟨k0, v0⟩ := a
    by_cases h : k0 = key
    · have h2 : ¬(k0 = k2) := fun e => hne (e ▸ h)
      simp [upsertSM, lookupSM, h, h2, Ne.symm hne]
    · by_cases h2 : k0 = k2
      · simp [upsertSM, lookupSM, h, h2, hne]
      · simp [upsertSM, lookupSM, h, h2, ih]

/-- C6 (amended): processing a received payload applies each well-formed
`[section]key=value` line as an upsert into the Section Map (leaving every
other key unchanged), skips each malformed line individually (missing
leading `[`, missing `]`, or missing `=`) without affecting the other
lines, and afterwards persists the map and raises the reload-requested
flag IF AT LEAST ONE line was upserted (`updates_count > 0`); a payload
with no well-formed line is neither persisted nor flagged — see
`C6_sync_payload_counterexample` for why the original unconditional claim
fails. -/
theorem C6_sync_payload (payload : List Char) (m : SectionMap) :
    ((update_config_from_string payload m).1 = applyWireLines (splitLinesNL payload) m ∧
     (update_config_from_string payload m).2 =
       ((splitLinesNL payload).filter fun l => (parseWireLine l).isSome).length) ∧
    ((processPayload payload m).map = (update_config_from_string payload m).1 ∧
     ((processPayload payload m).saved = true ↔ 0 < (update_config_from_string payload m).2) ∧
     ((processPayload payload m).reloadFlagRaised = true ↔
       0 < (update_config_from_string payload m).2)) ∧
    (∀ s k v : List Char, ']' ∉ s → '=' ∉ k →
      parseWireLine ('[' :: (s ++ ']' :: (k ++ '=' :: v))) = some (lstr s, lstr k, lstr v)) ∧
    (∀ l : List Char, ']' ∉ l → parseWireLine l = none) ∧
    (∀ l : List Char, '=' ∉ l → parseWireLine l = none) ∧
    (∀ l : List Char, l.head? ≠ some '[' → parseWireLine l = none) ∧
    (∀ (mm : SectionMap) (key : String × String) (v2 : String),
      lookupSM (upsertSM mm key v2) key = some v2 ∧
      ∀ k2, k2 ≠ key → lookupSM (upsertSM mm key v2) k2 = lookupSM mm k2) := by
  refine ⟨?_, ⟨rfl, ?_, ?_⟩, ?_, ?_, ?_, ?_, ?_⟩
  · rw [update_config_from_string, foldl_wireStep]
    exact ⟨rfl, by simp⟩
  · simp [processPayload]
  · simp [processPayload]
  · exact fun s k v hs hk => parseWireLine_structural s k v hs hk
  · intro l h
    simp [parseWireLine, strFind_none l ']' 0 h]
  · intro l h
    unfold parseWireLine
    cases hf : strFind l ']' 0 with
    | none => simp
    | some se => simp [strFind_none l '=' se h]
  · intro l h
    simp [parseWireLine, h]
  · exact fun mm key v2 =>
      ⟨lookupSM_upsert_self mm key v2, fun k2 h => lookupSM_upsert_other mm key k2 v2 h⟩

/-- C6 witness: a well-formed wire line dissected into its section, key
and value, at concrete input. -/
theorem C6_sync_payload_witness :
    (']' ∉ "pwm".toList) ∧ ('=' ∉ "pwm_min".toList) ∧
    parseWireLine ('[' :: ("pwm".toList ++ ']' :: ("pwm_min".toList ++ '=' :: "1150".toList))) =
      some (lstr "pwm".toList, lstr "pwm_min".toList, lstr "1150".toList) :=
  ⟨by decide, by decide,
   (C6_sync_payload [] []).2.2.1 "pwm".toList "pwm_min".toList "1150".toList
     (by decide) (by decide)⟩

/-- C6 counterexample: a nonempty payload whose only line is malformed
(no leading `[`) is skipped, and — contrary to the claim's unconditional
"afterwards the map is persisted and the flag raised" — nothing is saved
and the reload flag stays down. -/
theorem C6_sync_payload_counterexample :
    splitLinesNL "pwm_min=1150".toList = ["pwm_min=1150".toList] ∧
    (processPayload "pwm_min=1150".toList []).map = [] ∧
    (processPayload "pwm_min=1150".toList []).saved = false ∧
    (processPayload "pwm_min=1150".toList []).reloadFlagRaised = false := by
  refine ⟨?_, ?_, ?_, ?_⟩ <;> rfl

end ROV
